import Mathlib

/-!
# BLE transport-notification protocol: shallow embedding

A shallow embedding of the core of the `ble-protocol` repository:

* the protocol constants, enums and helpers of `types.ts` (shipped in this
  snapshot as the second document of `src/unnamed/part_003`, lines 50-148),
* the codec (`src/ble-client/src/protocol/parser.ts`),
* the authenticator plumbing around the platform keyed-hash primitive,
* the notification-store reconciliation and the session stop operations
  (`src/ble-client/src/composables/useBluetooth.ts`), and
* the variant composable shipped in `src/unnamed/part_004` (a debug build of
  the same composable, with a scan log, diagnostics and a test-injection
  helper).

Byte buffers (`Uint8Array` values) are embedded as `List Nat`; every entry of
a real `Uint8Array` is `< 256`, and theorems that need that bound state it as
a hypothesis.  The platform digest primitive (Web Crypto HMAC-SHA-256, which
is not part of the repository) is a parameter of type `HmacFun`.
-/

/-- The type of the platform keyed-hash primitive: key bytes and data bytes to
the digest bytes.  `crypto.subtle.sign` with HMAC-SHA-256 always returns a
32-byte digest; theorems state that length as a hypothesis where they need
it. -/
def HmacFun : Type := List Nat → List Nat → List Nat

-- ── Constants (types.ts, src/unnamed/part_003 lines 50-148) ─────────────

/-- `PROTOCOL_VERSION` (types.ts, part_003 line 56): the single supported
wire version. -/
def PROTOCOL_VERSION : Nat := 1

/-- `HMAC_TAG_INFRA_LEN` (types.ts, part_003 line 65): bytes of the
truncated infrastructure HMAC tag. -/
def HMAC_TAG_INFRA_LEN : Nat := 8

/-- `HMAC_TAG_CLIENT_LEN` (types.ts, part_003 line 68): bytes of the
truncated client HMAC tag. -/
def HMAC_TAG_CLIENT_LEN : Nat := 4

/-- `NOTIFICATION_SIZE` (types.ts, part_003 line 72): total packed record
size, 1 + 4 + 4 + 1 + 1 + 2 + 8 + 4 = 25 bytes. -/
def NOTIFICATION_SIZE : Nat := 25

/-- `BASE_PAYLOAD_SIZE` (types.ts, part_003 lines 75-76): everything before
both HMAC tags, `NOTIFICATION_SIZE - HMAC_TAG_INFRA_LEN -
HMAC_TAG_CLIENT_LEN` = 13. -/
def BASE_PAYLOAD_SIZE : Nat :=
  NOTIFICATION_SIZE - HMAC_TAG_INFRA_LEN - HMAC_TAG_CLIENT_LEN

/-- `HMAC_KEY_CLIENT` (types.ts, part_003 line 62): the pre-shared client
key string, as its UTF-8 bytes (`TextEncoder.encode` in parser.ts line 25
produces exactly these for this ASCII string). -/
def HMAC_KEY_CLIENT : List Nat :=
  [99, 108, 105, 101, 110, 116, 45, 115, 101, 99, 114, 101, 116, 45,
   107, 101, 121, 45, 97, 112, 112, 33, 33, 33]

/-- The declared values of the numeric enum `TransportType { Bus = 1,
Train = 2 }` (types.ts, part_003 lines 80-83).  For a TypeScript numeric
enum, `v in TransportType` on a number `v` holds exactly when `v` is a
declared member value, by the reverse mapping. -/
def TransportTypeValues : List Nat := [1, 2]

/-- The declared values of the numeric enum `TransportStatus { Passing = 1,
Coming = 2, Late = 3 }` (types.ts, part_003 lines 85-89). -/
def TransportStatusValues : List Nat := [1, 2, 3]

/-- Store capacity bound (`MAX_NOTIFICATIONS` in both composables). -/
def MAX_NOTIFICATIONS : Nat := 100

-- ── Byte-buffer helpers ────────────────────────────────────────────────

/-- Reading byte `i` of a buffer (`DataView.getUint8` / indexing); reads past
the end yield 0, but the parser only reads inside the checked 25-byte
prefix. -/
def byteAt (p : List Nat) (i : Nat) : Nat := p.getD i 0

/-- `Uint8Array.prototype.slice a b`: the bytes at indices `a ≤ i < b`. -/
def sliceBytes (p : List Nat) (a b : Nat) : List Nat := (p.drop a).take (b - a)

/-- A buffer is well formed when every entry is a byte value. -/
def WFBytes (p : List Nat) : Prop := ∀ b ∈ p, b < 256

instance (p : List Nat) : Decidable (WFBytes p) := by
  unfold WFBytes; infer_instance

/-- `formatNotificationId` (types.ts, part_003 lines 146-148): the
uppercase hex rendering of the 4-byte dedup key via `bytesToHex` (part_003
lines 139-143, two hex digits per byte).  Embedded as the list of hex-digit
values: on byte arrays this list and the hex string determine each other
digit by digit, so equality of the strings coincides with equality of these
lists.  Both composables compare formatted ids to locate an existing store
entry. -/
def formatNotificationId (b : List Nat) : List Nat :=
  b.flatMap (fun x => [x >>> 4 &&& 0x0f, x &&& 0x0f])

-- ── Notification record ────────────────────────────────────────────────

/-- The decoded record, `TransportNotification` (types.ts, part_003 lines
115-134).  `receivedAt` (an ISO timestamp string in the source) is embedded
as an abstract timestamp value supplied by the environment. -/
structure TransportNotification where
  version : Nat
  sourceId : List Nat
  notificationId : List Nat
  eventId : Nat
  destinationId : Nat
  transportType : Nat
  transportStatus : Nat
  durationSecs : Nat
  hmacTagInfra : List Nat
  hmacTagClient : List Nat
  clientVerified : Bool
  raw : List Nat
  receivedAt : Nat
  rssi : Option Int
deriving DecidableEq, Repr

-- ── Authenticator (parser.ts lines 17-56) ──────────────────────────────

/-- `computeHmacTag` (parser.ts lines 17-33): the first `length` bytes of the
platform keyed-hash digest.  The digest itself (`crypto.subtle.sign` with
HMAC-SHA-256) is the parameter `hmac`. -/
def computeHmacTag (hmac : HmacFun) (key : List Nat) (data : List Nat)
    (length : Nat) : List Nat :=
  (hmac key data).take length

/-- `verifyClientTag` (parser.ts lines 38-49): recompute the truncated tag
over the base payload and compare byte-for-byte, length included.  The
pre-shared key string is threaded as `key`; the theorems quantify over it,
covering in particular the constant `HMAC_KEY_CLIENT` above. -/
def verifyClientTag (hmac : HmacFun) (key : List Nat) (basePayload : List Nat)
    (clientTag : List Nat) : Bool :=
  let expected := computeHmacTag hmac key basePayload HMAC_TAG_CLIENT_LEN
  if expected.length ≠ clientTag.length then false
  else (expected.zip clientTag).all (fun q => q.1 == q.2)

/-- `hasClientTag` (parser.ts lines 54-56): the tag is present when some byte
is nonzero. -/
def hasClientTag (tag : List Nat) : Bool := tag.any (fun b => b != 0)

-- ── Codec (parser.ts lines 72-160) ─────────────────────────────────────

/-- `parseNotification` (parser.ts lines 72-160).  Rejects short payloads,
wrong versions and undeclared enum nibbles; otherwise always returns a
record, with `clientVerified` false when the tag is absent (all zero) or the
verification fails.  `now` is the environment timestamp stamped into
`receivedAt`. -/
def parseNotification (hmac : HmacFun) (key : List Nat) (payload : List Nat)
    (rssi : Option Int) (now : Nat) : Option TransportNotification :=
  if payload.length < NOTIFICATION_SIZE then none
  else if byteAt payload 0 ≠ PROTOCOL_VERSION then none
  else if TransportTypeValues.contains (byteAt payload 10 >>> 4 &&& 0x0f) = false then
    none
  else if TransportStatusValues.contains (byteAt payload 10 &&& 0x0f) = false then
    none
  else
    let hmacTagClient := sliceBytes payload (BASE_PAYLOAD_SIZE + HMAC_TAG_INFRA_LEN)
      (BASE_PAYLOAD_SIZE + HMAC_TAG_INFRA_LEN + HMAC_TAG_CLIENT_LEN)
    some
      { version := byteAt payload 0
        sourceId := sliceBytes payload 1 5
        notificationId := sliceBytes payload 5 9
        eventId := byteAt payload 9 >>> 4 &&& 0x0f
        destinationId := byteAt payload 9 &&& 0x0f
        transportType := byteAt payload 10 >>> 4 &&& 0x0f
        transportStatus := byteAt payload 10 &&& 0x0f
        durationSecs := byteAt payload 11 + 256 * byteAt payload 12
        hmacTagInfra := sliceBytes payload BASE_PAYLOAD_SIZE
          (BASE_PAYLOAD_SIZE + HMAC_TAG_INFRA_LEN)
        hmacTagClient := hmacTagClient
        clientVerified :=
          if hasClientTag hmacTagClient then
            verifyClientTag hmac key (sliceBytes payload 0 BASE_PAYLOAD_SIZE) hmacTagClient
          else false
        raw := sliceBytes payload 0 NOTIFICATION_SIZE
        receivedAt := now
        rssi := rssi }

-- ── Notification store (useBluetooth.ts lines 271-287) ─────────────────

/-- The optional-chaining read
`notifications.value[existingIdx]?.clientVerified` used by the reconcile
step: truthy exactly when the index is in range and the entry there is
verified. -/
def entryVerified (store : List TransportNotification) (i : Nat) : Bool :=
  match store[i]? with
  | some n => n.clientVerified
  | none => false

/-- Store-reconciliation step of `handleAdvertisement`
(`src/ble-client/src/composables/useBluetooth.ts` lines 271-287): locate an
existing entry by formatted notification id; keep a verified entry as is,
upgrade an unverified entry in place when the new record is verified,
discard an unverified duplicate; otherwise push the record onto the front
and truncate to `MAX_NOTIFICATIONS` entries. -/
def reconcileNotification (store : List TransportNotification)
    (notif : TransportNotification) : List TransportNotification :=
  match store.findIdx? (fun n =>
      formatNotificationId n.notificationId ==
      formatNotificationId notif.notificationId) with
  | some existingIdx =>
    if entryVerified store existingIdx then store
    else if notif.clientVerified then store.set existingIdx notif
    else store
  | none =>
    let grown := notif :: store
    if grown.length > MAX_NOTIFICATIONS then grown.take MAX_NOTIFICATIONS
    else grown

/-- Store-reconciliation step of the variant `handleAdvertisement` in
`src/unnamed/part_004` (lines 385-398): an existing entry with the same
formatted notification id is replaced unconditionally; otherwise the record
is pushed onto the front and the store truncated to `MAX_NOTIFICATIONS`. -/
def reconcileNotificationDebug (store : List TransportNotification)
    (notif : TransportNotification) : List TransportNotification :=
  match store.findIdx? (fun n =>
      formatNotificationId n.notificationId ==
      formatNotificationId notif.notificationId) with
  | some existingIdx => store.set existingIdx notif
  | none =>
    let grown := notif :: store
    if grown.length > MAX_NOTIFICATIONS then grown.take MAX_NOTIFICATIONS
    else grown

/-- Store effect of `injectTestNotification` (`src/unnamed/part_004` lines
444-495): both branches — parsed record and manual fallback record — push
the built record onto the front of the store without any cap check. -/
def injectTestInsert (notif : TransportNotification)
    (store : List TransportNotification) : List TransportNotification :=
  notif :: store

-- ── Session manager (useBluetooth.ts lines 155-248) ────────────────────

/-- Shared session status (`BleStatus` in `useBluetooth.ts`). -/
inductive BleStatus where
  | idle
  | scanning
  | error
  | unsupported
deriving DecidableEq, Repr

/-- The two scanning modes (`ScanMode` in `useBluetooth.ts`). -/
inductive ScanMode where
  | scan
  | watch
deriving DecidableEq, Repr

/-- The session-relevant mutable state of the composable.  Handle and callback
refs (`scanInstance`, `scanHandler`, `watchedDevice`, `watchAbort`,
`deviceHandler`) are embedded as presence booleans: stopping a handle and
nulling the ref leaves the boolean `false`. -/
structure BleState where
  status : BleStatus
  activeMode : Option ScanMode
  scanInstance : Bool
  scanHandler : Bool
  watchedDevice : Bool
  watchAbort : Bool
  deviceHandler : Bool
  notifications : List TransportNotification
deriving DecidableEq, Repr

/-- `stopScan` (`useBluetooth.ts` lines 155-171): stop and clear the scan
handle and listener if present; reset status/mode only when scan mode was
the active one. -/
def stopScan (s : BleState) : BleState :=
  let s := if s.scanInstance then { s with scanInstance := false } else s
  let s := if s.scanHandler then { s with scanHandler := false } else s
  if s.activeMode = some ScanMode.scan then
    { s with status := BleStatus.idle, activeMode := none }
  else s

/-- `stopWatch` (`useBluetooth.ts` lines 221-235): abort the watch if
pending, deregister the device listener if both device and listener are
present, always clear the device ref; reset status/mode only when watch mode
was active. -/
def stopWatch (s : BleState) : BleState :=
  let s := if s.watchAbort then { s with watchAbort := false } else s
  let s :=
    if s.watchedDevice && s.deviceHandler then { s with deviceHandler := false }
    else s
  let s := { s with watchedDevice := false }
  if s.activeMode = some ScanMode.watch then
    { s with status := BleStatus.idle, activeMode := none }
  else s

/-- `stopAll` (`useBluetooth.ts` lines 239-244): run both stop paths, then
unconditionally reset status to idle and clear the active mode. -/
def stopAll (s : BleState) : BleState :=
  let s := stopScan s
  let s := stopWatch s
  { s with status := BleStatus.idle, activeMode := none }

-- ── Concrete sample values ─────────────────────────────────────────────

def hmacZeroDigest : HmacFun := fun _ _ => List.replicate 32 0

def hmacRangeDigest : HmacFun := fun _ _ => List.range 32

def rtBase : List Nat := [1, 0, 0, 0, 0, 0, 0, 0, 0, 0, 0x11, 0, 0]

def rtInfra : List Nat := List.replicate 8 0

def rtZeroPayload : List Nat :=
  rtBase ++ rtInfra ++ computeHmacTag hmacZeroDigest [] rtBase HMAC_TAG_CLIENT_LEN

def notifVerifiedSample : TransportNotification :=
  { version := 1, sourceId := [0xAA, 0xBB, 0xCC, 0xDD],
    notificationId := [0x11, 0x22, 0x33, 0x44],
    eventId := 3, destinationId := 7, transportType := 1, transportStatus := 2,
    durationSecs := 30, hmacTagInfra := [1, 2, 3, 4, 5, 6, 7, 8],
    hmacTagClient := [0, 1, 2, 3], clientVerified := true,
    raw := [], receivedAt := 0, rssi := none }

def notifUnverifiedSample : TransportNotification :=
  { notifVerifiedSample with
    clientVerified := false
    hmacTagClient := [0, 0, 0, 0] }

def notifUnverifiedAlt : TransportNotification :=
  { notifUnverifiedSample with receivedAt := 1, rssi := some (-50) }

def notifOtherIdSample : TransportNotification :=
  { notifVerifiedSample with notificationId := [0x55, 0x66, 0x77, 0x88] }

def sessionIdle : BleState :=
  { status := BleStatus.idle, activeMode := none, scanInstance := false,
    scanHandler := false, watchedDevice := false, watchAbort := false,
    deviceHandler := false, notifications := [] }

def sessionWatchActive : BleState :=
  { status := BleStatus.scanning, activeMode := some ScanMode.watch,
    scanInstance := false, scanHandler := false, watchedDevice := true,
    watchAbort := true, deviceHandler := true,
    notifications := [notifVerifiedSample] }

def sessionScanActive : BleState :=
  { status := BleStatus.scanning, activeMode := some ScanMode.scan,
    scanInstance := true, scanHandler := true, watchedDevice := false,
    watchAbort := false, deviceHandler := false,
    notifications := [notifVerifiedSample] }

def badTagPayload : List Nat := rtBase ++ rtInfra ++ [9, 9, 9, 9]

-- Helper lemmas about reads from a truncated buffer.

theorem byteAt_take (p : List Nat) (i n : Nat) (h : i < n) :
    byteAt (p.take n) i = byteAt p i := by
  unfold byteAt
  simp [List.getElem?_take_of_lt h]

theorem sliceBytes_take (p : List Nat) (a b n : Nat) (hab : a ≤ b) (h : b ≤ n) :
    sliceBytes (p.take n) a b = sliceBytes p a b := by
  unfold sliceBytes
  rw [List.take_drop, List.take_drop, List.take_take,
    Nat.min_eq_left (by omega : a + (b - a) ≤ n)]

theorem all_zip_self_beq (l : List Nat) :
    ((l.zip l).all fun q => q.1 == q.2) = true := by
  induction l with
  | nil => rfl
  | cons a t ih => simp [ih]

-- ── Claim theorems ────────────────────────────────────────────────────

/-- Claim C1, amended: in the reconciliation of
`src/ble-client/src/composables/useBluetooth.ts`, whenever the first store
entry matching the notificationId of the incoming record is already
clientVerified, reconciling leaves the stored entry and the store as a whole
unchanged, whether the new record is verified or not.  (The claim as stated
over the whole repository fails: the variant handler in
`src/unnamed/part_004` replaces the entry unconditionally; see the
counterexample below.) -/
theorem reconcile_keeps_verified_entry (store : List TransportNotification)
    (notif : TransportNotification) (i : Nat)
    (hfind : store.findIdx? (fun n =>
      formatNotificationId n.notificationId ==
      formatNotificationId notif.notificationId) = some i)
    (hver : entryVerified store i = true) :
    reconcileNotification store notif = store := by
  unfold reconcileNotification
  rw [hfind]
  simp [hver]

/-- Witness for C1: a one-entry store with a verified entry absorbs an
unverified duplicate unchanged. -/
theorem reconcile_keeps_verified_entry_witness :
    reconcileNotification [notifVerifiedSample] notifUnverifiedSample =
      [notifVerifiedSample] :=
  reconcile_keeps_verified_entry [notifVerifiedSample] notifUnverifiedSample 0
    (by decide) (by decide)

/-- Counterexample for C1 as stated: the `handleAdvertisement` variant of
`src/unnamed/part_004` (lines 391-392) overwrites a verified store entry
with a newly decoded unverified record of the same notificationId, changing
the stored entry. -/
theorem reconcileDebug_overwrites_verified :
    notifVerifiedSample.clientVerified = true ∧
    notifUnverifiedSample.notificationId = notifVerifiedSample.notificationId ∧
    notifUnverifiedSample.clientVerified = false ∧
    reconcileNotificationDebug [notifVerifiedSample] notifUnverifiedSample =
      [notifUnverifiedSample] ∧
    [notifUnverifiedSample] ≠ [notifVerifiedSample] := by decide

/-- C2: `parseNotification` returns no record exactly when the payload is
shorter than 25 bytes, byte 0 differs from 1, the high nibble of byte 10 is
outside {1, 2}, or the low nibble of byte 10 is outside {1, 2, 3}; every
payload meeting all four conditions yields a record. -/
theorem parseNotification_eq_none_iff (hmac : HmacFun) (key payload : List Nat)
    (rssi : Option Int) (now : Nat) :
    parseNotification hmac key payload rssi now = none ↔
      payload.length < 25 ∨ byteAt payload 0 ≠ 1 ∨
        ¬(byteAt payload 10 >>> 4 &&& 0x0f = 1 ∨
          byteAt payload 10 >>> 4 &&& 0x0f = 2) ∨
        ¬(byteAt payload 10 &&& 0x0f = 1 ∨ byteAt payload 10 &&& 0x0f = 2 ∨
          byteAt payload 10 &&& 0x0f = 3) := by
  have htype : ∀ v : Nat, TransportTypeValues.contains v = true ↔ (v = 1 ∨ v = 2) := by
    intro v; simp [TransportTypeValues]
  have hstat : ∀ v : Nat,
      TransportStatusValues.contains v = true ↔ (v = 1 ∨ v = 2 ∨ v = 3) := by
    intro v; simp [TransportStatusValues]
  unfold parseNotification
  split_ifs with h1 h2 h3 h4
  · simp only [NOTIFICATION_SIZE] at h1; tauto
  · simp only [PROTOCOL_VERSION] at h2; tauto
  · have : ¬(byteAt payload 10 >>> 4 &&& 0x0f = 1 ∨
        byteAt payload 10 >>> 4 &&& 0x0f = 2) := by
      intro h; rw [(htype _).mpr h] at h3; simp at h3
    tauto
  · have : ¬(byteAt payload 10 &&& 0x0f = 1 ∨ byteAt payload 10 &&& 0x0f = 2 ∨
        byteAt payload 10 &&& 0x0f = 3) := by
      intro h; rw [(hstat _).mpr h] at h4; simp at h4
    tauto
  · simp only [NOTIFICATION_SIZE] at h1
    simp only [PROTOCOL_VERSION] at h2
    have h3Prime : byteAt payload 10 >>> 4 &&& 0x0f = 1 ∨
        byteAt payload 10 >>> 4 &&& 0x0f = 2 := by
      rcases Bool.eq_false_or_eq_true
        (TransportTypeValues.contains (byteAt payload 10 >>> 4 &&& 0x0f)) with ht | hf
      · exact (htype _).mp ht
      · exact absurd hf h3
    have h4Prime : byteAt payload 10 &&& 0x0f = 1 ∨ byteAt payload 10 &&& 0x0f = 2 ∨
        byteAt payload 10 &&& 0x0f = 3 := by
      rcases Bool.eq_false_or_eq_true
        (TransportStatusValues.contains (byteAt payload 10 &&& 0x0f)) with ht | hf
      · exact (hstat _).mp ht
      · exact absurd hf h4
    simp only [reduceCtorEq, false_iff]
    push_neg
    exact ⟨by omega, not_not.mp h2, h3Prime, h4Prime⟩

/-- Claim C3, amended: the reconciliation step preserves the 100-entry cap
(a store of at most 100 entries still has at most 100 afterwards), and
reconciling a record with a fresh notificationId into a store of exactly 100
entries inserts it at the front and evicts the entry at the tail.  (The
claim as stated — at most 100 entries after every sequence of public
operations — fails, because `injectTestNotification` bypasses the cap; see
the counterexample below.) -/
theorem reconcile_cap_and_eviction :
    (∀ (store : List TransportNotification) (notif : TransportNotification),
      store.length ≤ MAX_NOTIFICATIONS →
      (reconcileNotification store notif).length ≤ MAX_NOTIFICATIONS) ∧
    (∀ (store : List TransportNotification) (notif : TransportNotification),
      store.length = MAX_NOTIFICATIONS →
      store.findIdx? (fun n =>
        formatNotificationId n.notificationId ==
        formatNotificationId notif.notificationId) = none →
      reconcileNotification store notif =
        notif :: store.take (MAX_NOTIFICATIONS - 1)) := by
  constructor
  · intro store notif h
    unfold reconcileNotification
    cases hf : store.findIdx? (fun n =>
        formatNotificationId n.notificationId ==
        formatNotificationId notif.notificationId) with
    | some i =>
      by_cases hv : entryVerified store i = true <;>
        by_cases hc : notif.clientVerified = true <;>
          simp [hv, hc, List.length_set, h]
    | none =>
      simp only []
      split_ifs with hg
      · simp [List.length_take]
      · simp only [List.length_cons]
        simp only [List.length_cons, gt_iff_lt, not_lt] at hg
        omega
  · intro store notif h hf
    unfold reconcileNotification
    rw [hf]
    simp only []
    rw [if_pos (by
      simp only [List.length_cons, h]
      unfold MAX_NOTIFICATIONS
      omega)]
    have h100 : MAX_NOTIFICATIONS = 99 + 1 := rfl
    rw [h100, List.take_succ_cons]

/-- Witness for C3: both conjuncts at a concrete full store of 100 entries
and a record with a fresh notificationId. -/
theorem reconcile_cap_and_eviction_witness :
    (reconcileNotification (List.replicate 100 notifVerifiedSample)
      notifOtherIdSample).length ≤ MAX_NOTIFICATIONS ∧
    reconcileNotification (List.replicate 100 notifVerifiedSample)
        notifOtherIdSample =
      notifOtherIdSample :: (List.replicate 100 notifVerifiedSample).take 99 := by
  constructor
  · exact reconcile_cap_and_eviction.1 (List.replicate 100 notifVerifiedSample)
      notifOtherIdSample (by decide)
  · exact reconcile_cap_and_eviction.2 (List.replicate 100 notifVerifiedSample)
      notifOtherIdSample (by decide) (by decide)

/-- Counterexample for C3 as stated: the store effect of the public
operation `injectTestNotification` (`src/unnamed/part_004` lines 444-495)
pushes the built record onto the front without a cap check, so 101
injections from the empty store leave 101 > 100 entries. -/
theorem injectTestInsert_exceeds_cap :
    ((fun s => injectTestInsert notifUnverifiedSample s)^[101] []).length = 101 ∧
    ¬(((fun s => injectTestInsert notifUnverifiedSample s)^[101] []).length ≤
      MAX_NOTIFICATIONS) := by decide

/-- Claim C4: when the first store entry matching the notificationId of the
incoming record is unverified, reconciling a verified record replaces that
entry in place (same position, same store length, no insertion or eviction),
and reconciling another unverified record leaves the store unchanged
(first-unverified-wins). -/
theorem reconcile_unverified_entry (store : List TransportNotification)
    (notif : TransportNotification) (i : Nat)
    (hfind : store.findIdx? (fun n =>
      formatNotificationId n.notificationId ==
      formatNotificationId notif.notificationId) = some i)
    (hunv : entryVerified store i = false) :
    (notif.clientVerified = true →
      reconcileNotification store notif = store.set i notif ∧
      (store.set i notif).length = store.length) ∧
    (notif.clientVerified = false →
      reconcileNotification store notif = store) := by
  unfold reconcileNotification
  rw [hfind]
  constructor
  · intro hv
    simp [hunv, hv, List.length_set]
  · intro hv
    simp [hunv, hv]

/-- Witness for C4: both halves at a concrete one-entry store holding an
unverified entry. -/
theorem reconcile_unverified_entry_witness :
    reconcileNotification [notifUnverifiedSample] notifVerifiedSample =
      [notifVerifiedSample] ∧
    reconcileNotification [notifUnverifiedSample] notifUnverifiedAlt =
      [notifUnverifiedSample] := by
  constructor
  · have h := (reconcile_unverified_entry [notifUnverifiedSample]
      notifVerifiedSample 0 (by decide) (by decide)).1 (by decide)
    rw [h.1]
    decide
  · exact (reconcile_unverified_entry [notifUnverifiedSample]
      notifUnverifiedAlt 0 (by decide) (by decide)).2 (by decide)

/-- Claim C5: for every payload that passes the length, version and enum
checks and whose client tag (bytes 21..25) is not all zero, a failed
verification of the tag does not make `parseNotification` return no record:
it still returns a full record, with clientVerified = false. -/
theorem parse_failed_verification_still_returns (hmac : HmacFun)
    (key payload : List Nat) (rssi : Option Int) (now : Nat)
    (hlen : 25 ≤ payload.length)
    (hver : byteAt payload 0 = 1)
    (htype : byteAt payload 10 >>> 4 &&& 0x0f = 1 ∨
      byteAt payload 10 >>> 4 &&& 0x0f = 2)
    (hstat : byteAt payload 10 &&& 0x0f = 1 ∨ byteAt payload 10 &&& 0x0f = 2 ∨
      byteAt payload 10 &&& 0x0f = 3)
    (htag : hasClientTag (sliceBytes payload 21 25) = true)
    (hfail : verifyClientTag hmac key (sliceBytes payload 0 13)
      (sliceBytes payload 21 25) = false) :
    ∃ rec, parseNotification hmac key payload rssi now = some rec ∧
      rec.clientVerified = false := by
  unfold parseNotification
  split_ifs with h1 h2 h3 h4
  · exact absurd h1 (by unfold NOTIFICATION_SIZE; omega)
  · exact absurd hver h2
  · rw [show TransportTypeValues.contains (byteAt payload 10 >>> 4 &&& 0x0f) = true by
      rcases htype with h | h <;> simp [TransportTypeValues, h]] at h3
    exact absurd h3 (by simp)
  · rw [show TransportStatusValues.contains (byteAt payload 10 &&& 0x0f) = true by
      rcases hstat with h | h | h <;> simp [TransportStatusValues, h]] at h4
    exact absurd h4 (by simp)
  · refine ⟨_, rfl, ?_⟩
    show (if hasClientTag (sliceBytes payload (BASE_PAYLOAD_SIZE + HMAC_TAG_INFRA_LEN)
        (BASE_PAYLOAD_SIZE + HMAC_TAG_INFRA_LEN + HMAC_TAG_CLIENT_LEN)) then _ else false) = false
    have : sliceBytes payload (BASE_PAYLOAD_SIZE + HMAC_TAG_INFRA_LEN)
        (BASE_PAYLOAD_SIZE + HMAC_TAG_INFRA_LEN + HMAC_TAG_CLIENT_LEN) =
        sliceBytes payload 21 25 := by norm_num [BASE_PAYLOAD_SIZE, NOTIFICATION_SIZE, HMAC_TAG_INFRA_LEN, HMAC_TAG_CLIENT_LEN]
    rw [this, htag]
    simp only [if_true]
    have : sliceBytes payload 0 BASE_PAYLOAD_SIZE = sliceBytes payload 0 13 := by
      norm_num [BASE_PAYLOAD_SIZE, NOTIFICATION_SIZE, HMAC_TAG_INFRA_LEN, HMAC_TAG_CLIENT_LEN]
    rw [this]
    exact hfail

/-- Witness for C5: a concrete 25-byte payload with a wrong nonzero tag
still decodes, unverified. -/
theorem parse_failed_verification_still_returns_witness :
    ∃ rec, parseNotification hmacRangeDigest [] badTagPayload none 0 =
      some rec ∧ rec.clientVerified = false :=
  parse_failed_verification_still_returns hmacRangeDigest [] badTagPayload
    none 0 (by decide) (by decide) (by decide) (by decide) (by decide)
    (by decide)

/-- Claim C6: for every payload that passes the length, version and enum
checks and whose client tag (bytes 21..25) is all zero bytes, decoding
returns a record with clientVerified = false, and the authenticator is never
invoked — the result does not depend on the digest function or the key at
all. -/
theorem parse_zero_tag_unverified_no_authenticator
    (hmacA hmacB : HmacFun) (keyA keyB payload : List Nat)
    (rssi : Option Int) (now : Nat)
    (hlen : 25 ≤ payload.length)
    (hver : byteAt payload 0 = 1)
    (htype : byteAt payload 10 >>> 4 &&& 0x0f = 1 ∨
      byteAt payload 10 >>> 4 &&& 0x0f = 2)
    (hstat : byteAt payload 10 &&& 0x0f = 1 ∨ byteAt payload 10 &&& 0x0f = 2 ∨
      byteAt payload 10 &&& 0x0f = 3)
    (hzero : ∀ b ∈ sliceBytes payload 21 25, b = 0) :
    parseNotification hmacA keyA payload rssi now =
      parseNotification hmacB keyB payload rssi now ∧
    ∃ rec, parseNotification hmacA keyA payload rssi now = some rec ∧
      rec.clientVerified = false := by
  have htag : hasClientTag (sliceBytes payload (BASE_PAYLOAD_SIZE + HMAC_TAG_INFRA_LEN)
      (BASE_PAYLOAD_SIZE + HMAC_TAG_INFRA_LEN + HMAC_TAG_CLIENT_LEN)) = false := by
    have : sliceBytes payload (BASE_PAYLOAD_SIZE + HMAC_TAG_INFRA_LEN)
        (BASE_PAYLOAD_SIZE + HMAC_TAG_INFRA_LEN + HMAC_TAG_CLIENT_LEN) =
        sliceBytes payload 21 25 := by
      norm_num [BASE_PAYLOAD_SIZE, NOTIFICATION_SIZE, HMAC_TAG_INFRA_LEN, HMAC_TAG_CLIENT_LEN]
    rw [this]
    simp only [hasClientTag, List.any_eq_false]
    intro b hb
    simp [hzero b hb]
  have hmain : ∀ (hm : HmacFun) (k : List Nat),
      parseNotification hm k payload rssi now = some
        { version := byteAt payload 0
          sourceId := sliceBytes payload 1 5
          notificationId := sliceBytes payload 5 9
          eventId := byteAt payload 9 >>> 4 &&& 0x0f
          destinationId := byteAt payload 9 &&& 0x0f
          transportType := byteAt payload 10 >>> 4 &&& 0x0f
          transportStatus := byteAt payload 10 &&& 0x0f
          durationSecs := byteAt payload 11 + 256 * byteAt payload 12
          hmacTagInfra := sliceBytes payload BASE_PAYLOAD_SIZE
            (BASE_PAYLOAD_SIZE + HMAC_TAG_INFRA_LEN)
          hmacTagClient := sliceBytes payload (BASE_PAYLOAD_SIZE + HMAC_TAG_INFRA_LEN)
            (BASE_PAYLOAD_SIZE + HMAC_TAG_INFRA_LEN + HMAC_TAG_CLIENT_LEN)
          clientVerified := false
          raw := sliceBytes payload 0 NOTIFICATION_SIZE
          receivedAt := now
          rssi := rssi } := by
    intro hm k
    unfold parseNotification
    split_ifs with h1 h2 h3 h4
    · exact absurd h1 (by unfold NOTIFICATION_SIZE; omega)
    · exact absurd hver h2
    · rw [show TransportTypeValues.contains (byteAt payload 10 >>> 4 &&& 0x0f) = true by
        rcases htype with h | h <;> simp [TransportTypeValues, h]] at h3
      exact absurd h3 (by simp)
    · rw [show TransportStatusValues.contains (byteAt payload 10 &&& 0x0f) = true by
        rcases hstat with h | h | h <;> simp [TransportStatusValues, h]] at h4
      exact absurd h4 (by simp)
    · simp only [htag, Bool.false_eq_true, if_false]
  exact ⟨(hmain hmacA keyA).trans (hmain hmacB keyB).symm,
    ⟨_, hmain hmacA keyA, rfl⟩⟩

/-- Witness for C6: a concrete zero-tag payload decodes identically under
two different digest functions and keys, with clientVerified = false. -/
theorem parse_zero_tag_unverified_no_authenticator_witness :
    (parseNotification hmacRangeDigest [] rtZeroPayload none 0 =
      parseNotification hmacZeroDigest [0xFF] rtZeroPayload none 0) ∧
    ∃ rec, parseNotification hmacRangeDigest [] rtZeroPayload none 0 =
      some rec ∧ rec.clientVerified = false :=
  parse_zero_tag_unverified_no_authenticator hmacRangeDigest hmacZeroDigest
    [] [0xFF] rtZeroPayload none 0 (by decide) (by decide) (by decide)
    (by decide) (by decide)

/-- Claim C7, amended: for every 13-byte base payload passing version and
enum validation, appending the 8-byte infra tag and the 4-byte truncated
keyed-hash tag computed from the base payload with the pre-shared key, and
decoding the resulting 25-byte record, yields clientVerified = true —
provided the computed tag is not all zero bytes.  (Without that proviso the
claim fails: an all-zero tag takes the unsigned-tag branch of the parser;
see the counterexample below.) -/
theorem roundTrip_clientVerified (hmac : HmacFun) (key base infra : List Nat)
    (rssi : Option Int) (now : Nat)
    (hbase : base.length = 13)
    (hinfra : infra.length = 8)
    (hdigest : 4 ≤ (hmac key base).length)
    (hver : byteAt base 0 = 1)
    (htype : byteAt base 10 >>> 4 &&& 0x0f = 1 ∨
      byteAt base 10 >>> 4 &&& 0x0f = 2)
    (hstat : byteAt base 10 &&& 0x0f = 1 ∨ byteAt base 10 &&& 0x0f = 2 ∨
      byteAt base 10 &&& 0x0f = 3)
    (htag : hasClientTag (computeHmacTag hmac key base HMAC_TAG_CLIENT_LEN) = true) :
    ∃ rec, parseNotification hmac key
        (base ++ infra ++ computeHmacTag hmac key base HMAC_TAG_CLIENT_LEN)
        rssi now = some rec ∧
      rec.clientVerified = true := by
  set tag := computeHmacTag hmac key base HMAC_TAG_CLIENT_LEN with htagdef
  have htaglen : tag.length = 4 := by
    rw [htagdef]
    unfold computeHmacTag HMAC_TAG_CLIENT_LEN
    rw [List.length_take]
    omega
  have hplen : (base ++ infra ++ tag).length = 25 := by
    simp [hbase, hinfra, htaglen]
  have hb : ∀ i, i < 13 → byteAt (base ++ infra ++ tag) i = byteAt base i := by
    intro i hi
    simp only [byteAt, List.getD_eq_getElem?_getD]
    rw [List.append_assoc,
      List.getElem?_append_left (by omega : i < base.length)]
  have hslice0 : sliceBytes (base ++ infra ++ tag) 0 13 = base := by
    unfold sliceBytes
    rw [List.drop_zero, List.append_assoc]
    exact List.take_left' hbase
  have hslice21 : sliceBytes (base ++ infra ++ tag) 21 25 = tag := by
    unfold sliceBytes
    rw [List.drop_left' (by simp [hbase, hinfra] : ((base ++ infra)).length = 21)]
    exact List.take_of_length_le (by omega)
  have hverify : verifyClientTag hmac key base tag = true := by
    unfold verifyClientTag
    rw [← htagdef]
    rw [if_neg (by omega : ¬(tag.length ≠ tag.length))]
    exact all_zip_self_beq tag
  unfold parseNotification
  split_ifs with h1 h2 h3 h4
  · exact absurd h1 (by rw [hplen]; unfold NOTIFICATION_SIZE; omega)
  · rw [hb 0 (by omega), hver] at h2
    unfold PROTOCOL_VERSION at h2
    exact absurd rfl h2
  · rw [hb 10 (by omega)] at h3
    rw [show TransportTypeValues.contains (byteAt base 10 >>> 4 &&& 0x0f) = true by
      rcases htype with h | h <;> simp [TransportTypeValues, h]] at h3
    exact absurd h3 (by simp)
  · rw [hb 10 (by omega)] at h4
    rw [show TransportStatusValues.contains (byteAt base 10 &&& 0x0f) = true by
      rcases hstat with h | h | h <;> simp [TransportStatusValues, h]] at h4
    exact absurd h4 (by simp)
  · refine ⟨_, rfl, ?_⟩
    have harg : sliceBytes (base ++ infra ++ tag)
        (BASE_PAYLOAD_SIZE + HMAC_TAG_INFRA_LEN)
        (BASE_PAYLOAD_SIZE + HMAC_TAG_INFRA_LEN + HMAC_TAG_CLIENT_LEN) = tag :=
      hslice21
    have hbase0 : sliceBytes (base ++ infra ++ tag) 0 BASE_PAYLOAD_SIZE = base :=
      hslice0
    show (if hasClientTag (sliceBytes (base ++ infra ++ tag)
        (BASE_PAYLOAD_SIZE + HMAC_TAG_INFRA_LEN)
        (BASE_PAYLOAD_SIZE + HMAC_TAG_INFRA_LEN + HMAC_TAG_CLIENT_LEN)) then
        verifyClientTag hmac key
          (sliceBytes (base ++ infra ++ tag) 0 BASE_PAYLOAD_SIZE)
          (sliceBytes (base ++ infra ++ tag) (BASE_PAYLOAD_SIZE + HMAC_TAG_INFRA_LEN)
            (BASE_PAYLOAD_SIZE + HMAC_TAG_INFRA_LEN + HMAC_TAG_CLIENT_LEN))
      else false) = true
    rw [harg, hbase0, htag]
    simp only [if_true]
    exact hverify

/-- Witness for C7: the round trip at a concrete base payload and a
concrete digest function with a nonzero tag. -/
theorem roundTrip_clientVerified_witness :
    ∃ rec, parseNotification hmacRangeDigest []
        (rtBase ++ rtInfra ++
          computeHmacTag hmacRangeDigest [] rtBase HMAC_TAG_CLIENT_LEN)
        none 0 = some rec ∧ rec.clientVerified = true :=
  roundTrip_clientVerified hmacRangeDigest [] rtBase rtInfra none 0
    (by decide) (by decide) (by decide) (by decide) (by decide) (by decide)
    (by decide)

/-- Counterexample for C7 as stated: a 25-byte record built exactly per the
claim — bytes 21..25 equal to the truncated tag computed over its base
payload — decodes with clientVerified = false when that tag happens to be
all zero (here under a digest function whose output starts with four zero
bytes: the digest primitive is external to the repository and the code
treats any all-zero tag as unsigned before consulting the
authenticator). -/
theorem roundTrip_zero_tag_counterexample :
    rtZeroPayload = rtBase ++ rtInfra ++
      computeHmacTag hmacZeroDigest [] rtBase HMAC_TAG_CLIENT_LEN ∧
    rtBase.length = 13 ∧ byteAt rtBase 0 = 1 ∧
    (byteAt rtBase 10 >>> 4 &&& 0x0f = 1 ∨ byteAt rtBase 10 >>> 4 &&& 0x0f = 2) ∧
    (byteAt rtBase 10 &&& 0x0f = 1 ∨ byteAt rtBase 10 &&& 0x0f = 2 ∨
      byteAt rtBase 10 &&& 0x0f = 3) ∧
    (parseNotification hmacZeroDigest [] rtZeroPayload none 0).map
      (fun r => r.clientVerified) = some false := by decide

/-- Claim C8: calling stopAll in a state with no active session (no scan
instance, no watched device, no registered handlers) leaves status = idle,
activeMode = none and the notification store unchanged; if status was
already idle and no mode was active, the state is entirely unchanged. -/
theorem stopAll_noop_when_inactive (s : BleState)
    (hsi : s.scanInstance = false) (hsh : s.scanHandler = false)
    (hwd : s.watchedDevice = false) (hwa : s.watchAbort = false)
    (hdh : s.deviceHandler = false) :
    (stopAll s).status = BleStatus.idle ∧
    (stopAll s).activeMode = none ∧
    (stopAll s).notifications = s.notifications ∧
    (s.status = BleStatus.idle → s.activeMode = none → stopAll s = s) := by
  cases s with
  | mk status activeMode scanInstance scanHandler watchedDevice watchAbort
      deviceHandler notifications =>
    simp only at hsi hsh hwd hwa hdh
    subst hsi hsh hwd hwa hdh
    refine ⟨?_, ?_, ?_, ?_⟩ <;>
      simp [stopAll, stopScan, stopWatch] <;>
      split_ifs <;>
      simp_all

/-- Witness for C8: stopAll on the concrete idle session state is the
identity. -/
theorem stopAll_noop_when_inactive_witness :
    stopAll sessionIdle = sessionIdle ∧
    (stopAll sessionIdle).status = BleStatus.idle := by
  have h := stopAll_noop_when_inactive sessionIdle rfl rfl rfl rfl rfl
  exact ⟨h.2.2.2 rfl rfl, h.1⟩

/-- Claim C9: for every payload of length at least 25, the decode result is
fully determined by the first 25 bytes (the timestamp is passed in
separately), and the raw field of a returned record is exactly the first 25
bytes of the payload. -/
theorem parseNotification_determined_by_first25 (hmac : HmacFun)
    (key payload : List Nat) (rssi : Option Int) (now : Nat)
    (hlen : 25 ≤ payload.length) :
    parseNotification hmac key (payload.take 25) rssi now =
      parseNotification hmac key payload rssi now ∧
    ∀ rec, parseNotification hmac key payload rssi now = some rec →
      rec.raw = payload.take 25 := by
  have hlen25 : (payload.take 25).length = 25 := by
    simp [List.length_take]; omega
  have e0 := byteAt_take payload 0 25 (by omega)
  have e9 := byteAt_take payload 9 25 (by omega)
  have e10 := byteAt_take payload 10 25 (by omega)
  have e11 := byteAt_take payload 11 25 (by omega)
  have e12 := byteAt_take payload 12 25 (by omega)
  have s15 := sliceBytes_take payload 1 5 25 (by omega) (by omega)
  have s59 := sliceBytes_take payload 5 9 25 (by omega) (by omega)
  have sInfra := sliceBytes_take payload BASE_PAYLOAD_SIZE
    (BASE_PAYLOAD_SIZE + HMAC_TAG_INFRA_LEN) 25 (by decide) (by decide)
  have sClient := sliceBytes_take payload (BASE_PAYLOAD_SIZE + HMAC_TAG_INFRA_LEN)
    (BASE_PAYLOAD_SIZE + HMAC_TAG_INFRA_LEN + HMAC_TAG_CLIENT_LEN) 25
    (by decide) (by decide)
  have sBase := sliceBytes_take payload 0 BASE_PAYLOAD_SIZE 25 (by decide) (by decide)
  have sRaw := sliceBytes_take payload 0 NOTIFICATION_SIZE 25 (by decide) (by decide)
  constructor
  · unfold parseNotification
    rw [hlen25, e0, e9, e10, e11, e12, s15, s59, sInfra, sClient, sBase, sRaw]
    rw [if_neg (by decide : ¬(25 < NOTIFICATION_SIZE)),
      if_neg (show ¬(payload.length < NOTIFICATION_SIZE) by
        unfold NOTIFICATION_SIZE; omega)]
  · intro rec h
    unfold parseNotification at h
    split_ifs at h
    injection h with h
    rw [← h]
    show sliceBytes payload 0 NOTIFICATION_SIZE = payload.take 25
    simp [sliceBytes, NOTIFICATION_SIZE]

/-- Witness for C9: a concrete 28-byte payload decodes the same as its
25-byte prefix, and the returned raw field is that prefix. -/
theorem parseNotification_determined_by_first25_witness :
    parseNotification hmacRangeDigest []
        ((rtZeroPayload ++ [7, 7, 7]).take 25) none 0 =
      parseNotification hmacRangeDigest [] (rtZeroPayload ++ [7, 7, 7]) none 0 ∧
    (parseNotification hmacRangeDigest [] (rtZeroPayload ++ [7, 7, 7]) none 0).map
      (fun r => r.raw) = some ((rtZeroPayload ++ [7, 7, 7]).take 25) := by
  have h := parseNotification_determined_by_first25 hmacRangeDigest []
    (rtZeroPayload ++ [7, 7, 7]) none 0 (by decide)
  refine ⟨h.1, ?_⟩
  cases hp : parseNotification hmacRangeDigest [] (rtZeroPayload ++ [7, 7, 7])
      none 0 with
  | none => exact absurd hp (by decide)
  | some rec => simp [h.2 rec hp]

/-- Claim C10: stopping the inactive mode never disturbs the active one —
with activeMode = watch, stopScan leaves status and activeMode unchanged;
with activeMode = scan, stopWatch leaves them unchanged — and both stop
operations are idempotent on every state. -/
theorem stop_inactive_mode_frame (s : BleState) :
    (s.activeMode = some ScanMode.watch →
      (stopScan s).status = s.status ∧ (stopScan s).activeMode = s.activeMode) ∧
    (s.activeMode = some ScanMode.scan →
      (stopWatch s).status = s.status ∧ (stopWatch s).activeMode = s.activeMode) ∧
    stopScan (stopScan s) = stopScan s ∧
    stopWatch (stopWatch s) = stopWatch s := by
  cases s with
  | mk status activeMode scanInstance scanHandler watchedDevice watchAbort
      deviceHandler notifications =>
    refine ⟨?_, ?_, ?_, ?_⟩
    · intro h
      simp only at h
      subst h
      cases scanInstance <;> cases scanHandler <;> simp [stopScan]
    · intro h
      simp only at h
      subst h
      cases watchAbort <;> cases watchedDevice <;> cases deviceHandler <;>
        simp [stopWatch]
    · cases scanInstance <;> cases scanHandler <;>
        rcases activeMode with _ | m <;>
        simp [stopScan] <;> (try cases m) <;> simp_all [stopScan]
    · cases watchAbort <;> cases watchedDevice <;> cases deviceHandler <;>
        rcases activeMode with _ | m <;>
        simp [stopWatch] <;> (try cases m) <;> simp_all [stopWatch]

/-- Witness for C10: the frame conditions at concrete watch-active and
scan-active states, and idempotence at those states. -/
theorem stop_inactive_mode_frame_witness :
    ((stopScan sessionWatchActive).status = sessionWatchActive.status ∧
      (stopScan sessionWatchActive).activeMode = sessionWatchActive.activeMode) ∧
    ((stopWatch sessionScanActive).status = sessionScanActive.status ∧
      (stopWatch sessionScanActive).activeMode = sessionScanActive.activeMode) ∧
    stopScan (stopScan sessionScanActive) = stopScan sessionScanActive ∧
    stopWatch (stopWatch sessionWatchActive) = stopWatch sessionWatchActive := by
  refine ⟨(stop_inactive_mode_frame sessionWatchActive).1 rfl,
    (stop_inactive_mode_frame sessionScanActive).2.1 rfl,
    (stop_inactive_mode_frame sessionScanActive).2.2.1,
    (stop_inactive_mode_frame sessionWatchActive).2.2.2⟩
